import Mathlib

/-!
Verification of the research-assistant orchestration program (src/main.py).

Shallow embedding conventions:
* Decoded Python/JSON values are modelled by the inductive `Json` (JSON
  floating-point literals are outside the model; the claims only involve
  strings, objects, arrays and integers).  Objects produced by `json.loads`
  have distinct keys.
* A Python exception is a `PyError`.  A fallible computation returns
  `Except PyError α`.
* HTTP transports are opaque oracles: a function from the index of the
  request to its outcome, following the spec, which treats the HTTP clients
  as opaque request/response functions.
* Side effects (request counts, `time.sleep` durations, `print` lines) are
  returned explicitly in effect records.
-/

/-- A decoded JSON / Python value (`json.loads` output, response bodies).
Field names of an object are distinct, as produced by a JSON decoder. -/
inductive Json where
  | null : Json
  | bool (b : Bool) : Json
  | num (n : Int) : Json
  | str (s : String) : Json
  | arr (xs : List Json) : Json
  | obj (fields : List (String × Json)) : Json

/-- A Python exception, as raised by the code paths the program exercises. -/
inductive PyError where
  | valueError (msg : String) : PyError
  | typeError (msg : String) : PyError
  | keyError (key : String) : PyError
  | attributeError (msg : String) : PyError

/-- Dictionary lookup: the value stored under key `k`, if present. -/
def lookupKey (fs : List (String × Json)) (k : String) : Option Json :=
  (fs.find? (fun p => p.1 == k)).map (fun p => p.2)

/-- Python `pat in s` on strings (substring test). -/
def pyStrContains (s pat : String) : Bool :=
  if pat = "" then true else decide ((s.splitOn pat).length ≥ 2)

/-- Python `k in v` for a string key `k`: dict key membership, list
membership, substring test on strings; other values are not iterable. -/
def pyContainsStr (k : String) : Json → Except PyError Bool
  | Json.obj fs => Except.ok (lookupKey fs k).isSome
  | Json.arr xs =>
      Except.ok (xs.any (fun x => match x with | Json.str s => s == k | _ => false))
  | Json.str s => Except.ok (pyStrContains s k)
  | _ => Except.error (PyError.typeError "argument of type is not iterable")

/-- Python `v[k]` for a string key `k`. -/
def pySubscriptStr : Json → String → Except PyError Json
  | Json.obj fs, k =>
      match lookupKey fs k with
      | some v => Except.ok v
      | none => Except.error (PyError.keyError k)
  | Json.str _, _ => Except.error (PyError.typeError "string indices must be integers")
  | Json.arr _, _ => Except.error (PyError.typeError "list indices must be integers")
  | _, _ => Except.error (PyError.typeError "object is not subscriptable")

/-- Python `v.get(k, default)`: dict lookup with default; non-dicts have no
`get` attribute. -/
def pyGet (j : Json) (k : String) (dflt : Json) : Except PyError Json :=
  match j with
  | Json.obj fs => Except.ok ((lookupKey fs k).getD dflt)
  | _ => Except.error (PyError.attributeError "get")

/-- Python `for item in v`: lists yield their elements, strings their
one-character substrings, dicts their keys; other values are not iterable. -/
def pyIter : Json → Except PyError (List Json)
  | Json.arr xs => Except.ok xs
  | Json.str s => Except.ok (s.data.map (fun c => Json.str (String.singleton c)))
  | Json.obj fs => Except.ok (fs.map (fun p => Json.str p.1))
  | _ => Except.error (PyError.typeError "object is not iterable")

/-! ## `json.dumps(..., indent=2)` with `ensure_ascii=True` (the default) -/

/-- Lowercase hexadecimal digit. -/
def hexDigit (n : Nat) : Char :=
  if n < 10 then Char.ofNat (48 + n) else Char.ofNat (87 + n)

/-- Four lowercase hex digits, as in a JSON `\uXXXX` escape. -/
def hex4 (n : Nat) : String :=
  String.mk [hexDigit (n / 4096 % 16), hexDigit (n / 256 % 16),
             hexDigit (n / 16 % 16), hexDigit (n % 16)]

/-- Escape of one character inside a JSON string literal, following
`json.dumps` defaults: `"` and `\` escaped, the usual short escapes, and
every character outside 0x20..0x7e as `\uXXXX` (surrogate pairs beyond the
basic multilingual plane). -/
def escapeChar (c : Char) : String :=
  if c = Char.ofNat 34 then "\\\""
  else if c = Char.ofNat 92 then "\\\\"
  else if c = Char.ofNat 10 then "\\n"
  else if c = Char.ofNat 9 then "\\t"
  else if c = Char.ofNat 13 then "\\r"
  else if c.toNat = 8 then "\\b"
  else if c.toNat = 12 then "\\f"
  else if c.toNat < 32 then "\\u" ++ hex4 c.toNat
  else if c.toNat < 127 then String.singleton c
  else if c.toNat < 65536 then "\\u" ++ hex4 c.toNat
  else
    "\\u" ++ hex4 (55296 + (c.toNat - 65536) / 1024) ++
    "\\u" ++ hex4 (56320 + (c.toNat - 65536) % 1024)

/-- A JSON string literal for `s`. -/
def pyQuote (s : String) : String :=
  "\"" ++ String.join (s.data.map escapeChar) ++ "\""

/-- Indentation of `indent=2` at nesting level `lvl`. -/
def indentPad (lvl : Nat) : String :=
  String.mk (List.replicate (2 * lvl) ' ')

mutual

/-- `json.dumps(v, indent=2)` at nesting level `lvl`. -/
def jsonDumpsAux : Nat → Json → String
  | _, Json.null => "null"
  | _, Json.bool true => "true"
  | _, Json.bool false => "false"
  | _, Json.num n => toString n
  | _, Json.str s => pyQuote s
  | _, Json.arr [] => "[]"
  | lvl, Json.arr (x :: xs) =>
      "[\n" ++ String.intercalate ",\n" (jsonDumpsList (lvl + 1) (x :: xs)) ++
      "\n" ++ indentPad lvl ++ "]"
  | _, Json.obj [] => "\x7b\x7d"
  | lvl, Json.obj (f :: fs) =>
      "\x7b\n" ++ String.intercalate ",\n" (jsonDumpsFields (lvl + 1) (f :: fs)) ++
      "\n" ++ indentPad lvl ++ "\x7d"

/-- The serialized, indented elements of an array. -/
def jsonDumpsList : Nat → List Json → List String
  | _, [] => []
  | lvl, x :: xs => (indentPad lvl ++ jsonDumpsAux lvl x) :: jsonDumpsList lvl xs

/-- The serialized, indented `"key": value` members of an object. -/
def jsonDumpsFields : Nat → List (String × Json) → List String
  | _, [] => []
  | lvl, (k, v) :: fs =>
      (indentPad lvl ++ pyQuote k ++ ": " ++ jsonDumpsAux lvl v) ::
      jsonDumpsFields lvl fs

end

/-- `json.dumps(v, indent=2)`. -/
def jsonDumps (v : Json) : String := jsonDumpsAux 0 v

/-! ## Search Tool (`search_brave`, src/main.py lines 56-139)

The `requests` HTTP client is the opaque transport.  One call to
`requests.get` either raises a connection-level
`requests.exceptions.RequestException` or produces a response with a status
code and a body; `response.raise_for_status()` raises `requests.exceptions.HTTPError`
(a `RequestException`) exactly for status codes 400-599; `response.json()`
on an undecodable body raises `requests.exceptions.JSONDecodeError`, which
(since requests 2.27) subclasses both `RequestException` and `ValueError`,
so inside `search_brave` it is caught by the
`except requests.exceptions.RequestException` handler. -/

/-- The outcome of one `requests.get` call: either the request itself raises,
or a response arrives with a status code and a body (the body is recorded by
its `response.json()` outcome: decoded value, or decode-error message). -/
inductive Attempt where
  | netError (msg : String) : Attempt
  | response (status : Nat) (body : Except String Json) : Attempt

/-- A caught `requests.exceptions.RequestException`, by concrete subclass. -/
inductive RequestExc where
  | connection (msg : String) : RequestExc
  | httpStatus (status : Nat) : RequestExc
  | jsonDecode (msg : String) : RequestExc

/-- One diagnostic line printed by `search_brave`. -/
inductive LogEvent where
  | missingKey : LogEvent
  | gotResults : LogEvent
  | requestFailed (e : RequestExc) : LogEvent

/-- The observable side effects of one `search_brave` call: how many HTTP
requests were issued, the `time.sleep` durations in order, and the printed
diagnostic lines in order. -/
structure SearchEffects where
  httpCalls : Nat
  sleeps : List Nat
  logs : List LogEvent

/-- The body of one iteration of the `try` block of the retry loop:
`requests.get`, then `raise_for_status()` (raises for 400-599), then
`response.json()`; the caught `RequestException`, or the decoded body. -/
def runAttempt : Attempt → Except RequestExc Json
  | Attempt.netError m => Except.error (RequestExc.connection m)
  | Attempt.response status body =>
      if 400 ≤ status ∧ status ≤ 599 then Except.error (RequestExc.httpStatus status)
      else
        match body with
        | Except.error m => Except.error (RequestExc.jsonDecode m)
        | Except.ok j => Except.ok j

/-- Dataclass `SearchResult`.  The declared field types (`str`, `str`, `str`,
`list`) are not enforced at runtime, so each field holds whatever JSON value
the response supplied (defaults: empty string / empty list). -/
structure SearchResult where
  title : Json
  url : Json
  description : Json
  extra_snippets : Json

/-- `dataclasses.asdict` of a `SearchResult`: field names preserved, in
declaration order. -/
def searchResultAsdict (r : SearchResult) : Json :=
  Json.obj [("title", r.title), ("url", r.url),
            ("description", r.description), ("extra_snippets", r.extra_snippets)]

/-- One search hit from a response item:
`SearchResult(...)` built from `item.get` of `title`, `url`, `description`
(string defaults) and `extra_snippets` (empty-list default). -/
def mkSearchResult (item : Json) : Except PyError SearchResult := do
  let t ← pyGet item "title" (Json.str "")
  let u ← pyGet item "url" (Json.str "")
  let d ← pyGet item "description" (Json.str "")
  let es ← pyGet item "extra_snippets" (Json.arr [])
  pure ⟨t, u, d, es⟩

/-- The parse section after the retry loop breaks with a decoded body:
`results_json.get` of `web` (empty-dict default), then `.get` of `results`
(empty-list default), then one `SearchResult`
per item. -/
def parseResults (resultsJson : Json) : Except PyError (List SearchResult) := do
  let web ← pyGet resultsJson "web" (Json.obj [])
  let items ← pyGet web "results" (Json.arr [])
  let xs ← pyIter items
  xs.mapM mkSearchResult

/-- The `while retries < max_retries` loop of `search_brave`, with
`max_retries = 3` and `backoff_factor = 2`.  `retries` is the Python loop
counter (also the index of the next transport attempt); `left` is the fuel
`max_retries - retries`, so the loop guard `retries < max_retries` is
`left > 0`.  On a caught `RequestException` the counter is incremented, the
failure is printed, and `time.sleep(backoff_factor ** retries)` runs only if
the incremented counter is still below `max_retries`; otherwise the function
returns `[]` (modelled by the first component `none`). -/
def braveRetryLoop (transport : Nat → Attempt) : Nat → Nat → Option Json × SearchEffects
  | _, 0 => (none, ⟨0, [], []⟩)
  | retries, left + 1 =>
      match runAttempt (transport retries) with
      | Except.ok j => (some j, ⟨1, [], [LogEvent.gotResults]⟩)
      | Except.error e =>
          if left = 0 then
            (none, ⟨1, [], [LogEvent.requestFailed e]⟩)
          else
            let rest := braveRetryLoop transport (retries + 1) left
            (rest.1,
             ⟨rest.2.httpCalls + 1, 2 ^ (retries + 1) :: rest.2.sleeps,
              LogEvent.requestFailed e :: rest.2.logs⟩)

set_option linter.unusedVariables false in
/-- `search_brave(query, count=10)` (src/main.py lines 86-139).  `key` is the
state of the `BRAVE_SEARCH_AI_API_KEY` environment variable (`none` when the
variable is absent); `os.environ.get` with an empty-string default turns
both absence and the
empty value into the empty token.  `count` only flows into the request
parameters, which the opaque transport does not inspect.  All caught
transport failures degrade to `Except.ok []`; the post-break parse section
can still raise (`AttributeError` / `TypeError`) on unexpected body shapes. -/
def search_brave (query : String) (key : Option String) (transport : Nat → Attempt)
    (count : Nat) : Except PyError (List SearchResult) × SearchEffects :=
  if query = "" then (Except.ok [], ⟨0, [], []⟩)
  else
    let token := key.getD ""
    if token = "" then (Except.ok [], ⟨0, [], [LogEvent.missingKey]⟩)
    else
      let r := braveRetryLoop transport 0 3
      match r.1 with
      | none => (Except.ok [], r.2)
      | some resultsJson => (parseResults resultsJson, r.2)

/-! ## Content Tool (`get_url_content`, src/main.py lines 11-34) -/

/-- The response of the single `requests.post` call made by
`get_url_content`: its status code and the outcome of `response.json()`
(decoded value, or the `str(e)` of the raised `ValueError`). -/
structure HttpResponse where
  status : Nat
  body : Except String Json

/-- Dataclass `URLContent`.  Declared field types (`str`, `str`,
`str | None`) are not enforced at runtime; the Python value `None` is
`Json.null`. -/
structure URLContent where
  title : Json
  text : Json
  error : Json

/-- `URLContent(**content)`: the spread requires `content` to be a mapping
whose keys are drawn from `title`, `text`, `error` and include the two
fields without defaults (`title`, `text`); `error` defaults to `None`.  Any
other shape raises `TypeError` (which `get_url_content` does not catch). -/
def urlContentOfJson : Json → Except PyError URLContent
  | Json.obj fs =>
      if fs.all (fun p => p.1 == "title" || p.1 == "text" || p.1 == "error")
         && (lookupKey fs "title").isSome && (lookupKey fs "text").isSome then
        Except.ok ⟨(lookupKey fs "title").getD Json.null,
                   (lookupKey fs "text").getD Json.null,
                   (lookupKey fs "error").getD Json.null⟩
      else Except.error (PyError.typeError "unexpected or missing keyword argument")
  | _ => Except.error (PyError.typeError "argument after double-star must be a mapping")

set_option linter.unusedVariables false in
/-- `get_url_content(url)` (src/main.py lines 18-34).  It issues exactly one
`requests.post`; the second component counts the HTTP requests made.  A
non-200 status or a `ValueError` from `response.json()` is turned into an
error record; a `TypeError` from `URLContent(**content)` propagates. -/
def get_url_content (url : String) (transport : Nat → HttpResponse) :
    Except PyError URLContent × Nat :=
  if (transport 0).status ≠ 200 then
    (Except.ok ⟨Json.str "", Json.str "",
                Json.str ("Error: " ++ toString (transport 0).status)⟩, 1)
  else
    match (transport 0).body with
    | Except.error m =>
        (Except.ok ⟨Json.str "", Json.str "", Json.str ("Error parsing response: " ++ m)⟩, 1)
    | Except.ok j =>
        match urlContentOfJson j with
        | Except.ok u => (Except.ok u, 1)
        | Except.error e => (Except.error e, 1)

/-- The data-model invariant claimed for `ContentRecord`: if `error` is set
(non-null) then `title` and `text` are empty placeholder strings, and if
`title` or `text` carries content then `error` is unset. -/
def urlContentInvariant (u : URLContent) : Prop :=
  (u.error ≠ Json.null → u.title = Json.str "" ∧ u.text = Json.str "") ∧
  ((u.title ≠ Json.str "" ∨ u.text ≠ Json.str "") → u.error = Json.null)

/-- A response whose 200-path body does not itself set a non-null `error`
field (the documented provider shape has only `title` and `text`). -/
def benignBody (r : HttpResponse) : Prop :=
  r.status = 200 → ∀ fs, r.body = Except.ok (Json.obj fs) →
    (lookupKey fs "error").getD Json.null = Json.null

/-! ## Orchestration loop (`process_user_query`, src/main.py lines 198-226)

The model inference endpoint (`ask_llm`) is an opaque collaborator: a
function from the conversation so far to one assistant message (the `tools`
argument is the constant `brave_search_tools` registry on every call).  The
Search Tool executor is likewise threaded as the function
`searchExec : Json → Except PyError (List SearchResult)`, the denotation of
`search_brave` applied to the `query` argument value under the ambient
environment and network,
whose internal behaviour is modelled by `search_brave` above.  The console
echo of intermediate assistant free text is a side effect no claim observes
and is not recorded. -/

/-- A model-emitted tool-invocation-request.  The JSON-encoded argument blob
is recorded by its `json.loads` outcome: the decoded value, or the message of
the raised `json.JSONDecodeError` (a `ValueError`). -/
structure ToolCall where
  id : String
  name : String
  arguments : Except String Json

/-- The reply of the model: optional free text plus zero or more
tool-invocation-requests (the OpenAI `None` for no tool calls is the empty
list, both being falsy). -/
structure AssistantMsg where
  content : Option String
  tool_calls : List ToolCall

/-- One conversation message: the tagged variants that `history` holds. -/
inductive Message where
  | system (content : String) : Message
  | user (content : String) : Message
  | assistant (m : AssistantMsg) : Message
  | tool (tool_call_id : String) (content : String) : Message

/-- An apostrophe (the system prompt contains two). -/
def apos : String := String.singleton (Char.ofNat 39)

/-- The seeded system prompt (src/main.py lines 165-169, after `.strip()`). -/
def first_llm_system_prompt : String :=
  "You are a language model. Your task is to answer the complex queries of the user. You can use brave search to search internet and get not just links and title and small description, but also a deep dive into the original content of certain pages.\n\nYou can perform multiple search requests with breakdown" ++
  apos ++ "d queries, and do multi-turn requests before answering the user" ++
  apos ++ "s queries."

/-- Processing of one tool-invocation-request (the body of the `for
function_call in assistant_message.tool_calls` loop): decode the argument
blob (`json.loads` failures raise), start from an empty tool-result content,
fill it for `search_brave` requests, and append one tool-result message
tagged with the originating request id. -/
def runToolCall (searchExec : Json → Except PyError (List SearchResult))
    (fc : ToolCall) : Except PyError Message :=
  match fc.arguments with
  | Except.error m => Except.error (PyError.valueError m)
  | Except.ok args =>
      if fc.name = "search_brave" then
        match pyContainsStr "query" args with
        | Except.error e => Except.error e
        | Except.ok true =>
            match pySubscriptStr args "query" with
            | Except.error e => Except.error e
            | Except.ok qv =>
                match searchExec qv with
                | Except.error e => Except.error e
                | Except.ok rs =>
                    Except.ok (Message.tool fc.id
                      (jsonDumps (Json.arr (rs.map searchResultAsdict))))
        | Except.ok false =>
            Except.ok (Message.tool fc.id "No query found in arguments")
      else Except.ok (Message.tool fc.id "")

/-- The tool-execution loop over the requests of one assistant reply, in
order: the tool-result messages appended before any exception, and the
exception if one was raised. -/
def runToolCalls (searchExec : Json → Except PyError (List SearchResult)) :
    List ToolCall → List Message × Option PyError
  | [] => ([], none)
  | fc :: rest =>
      match runToolCall searchExec fc with
      | Except.error e => ([], some e)
      | Except.ok m =>
          let r := runToolCalls searchExec rest
          (m :: r.1, r.2)

/-- The `while True` loop of `process_user_query`, with explicit fuel: the
result is `none` when `fuel` iterations did not reach a reply without
tool-invocation-requests (the Python loop would still be running).  A
terminating run yields the returned value (or the uncaught exception) and
the final conversation. -/
def processLoop (llm : List Message → AssistantMsg)
    (searchExec : Json → Except PyError (List SearchResult)) :
    Nat → List Message → Option (Except PyError (Option String) × List Message)
  | 0, _ => none
  | fuel + 1, history =>
      if (llm history).tool_calls.isEmpty then
        some (Except.ok (llm history).content,
              history ++ [Message.assistant (llm history)])
      else
        match runToolCalls searchExec (llm history).tool_calls with
        | (msgs, some e) =>
            some (Except.error e,
                  history ++ [Message.assistant (llm history)] ++ msgs)
        | (msgs, none) =>
            processLoop llm searchExec fuel
              (history ++ [Message.assistant (llm history)] ++ msgs)

/-- `process_user_query(query)` (src/main.py lines 198-226): seed the
conversation with the system prompt and the raw user query, then run the
loop. -/
def process_user_query (llm : List Message → AssistantMsg)
    (searchExec : Json → Except PyError (List SearchResult))
    (fuel : Nat) (query : String) :
    Option (Except PyError (Option String) × List Message) :=
  processLoop llm searchExec fuel
    [Message.system first_llm_system_prompt, Message.user query]

/-! ## Spec-side definitions

These follow the wording of the specification, to be compared with the code
embedding above. -/

/-- Spec wording of the tool-result content for one tool-invocation-request
(spec, transition EXECUTING_TOOLS to AWAITING_MODEL): the JSON-array
serialization of the Search Tool results when the request names
`search_brave` and its decoded arguments contain a `query` key; the literal
diagnostic string when the `query` key is absent; the empty string for an
unrecognized tool. -/
def specToolResultContent (searchExec : Json → Except PyError (List SearchResult))
    (fc : ToolCall) : String :=
  match fc.arguments with
  | Except.ok (Json.obj fs) =>
      if fc.name = "search_brave" then
        match lookupKey fs "query" with
        | some qv =>
            match searchExec qv with
            | Except.ok rs => jsonDumps (Json.arr (rs.map searchResultAsdict))
            | Except.error _ => ""
        | none => "No query found in arguments"
      else ""
  | _ => ""

/-- The well-behaved case for one tool-invocation-request: its argument blob
decodes to a JSON object, and if it is a `search_brave` request whose
arguments carry a `query` key, the Search Tool executor returns normally on
that value. -/
def toolCallOk (searchExec : Json → Except PyError (List SearchResult))
    (fc : ToolCall) : Prop :=
  ∃ fs, fc.arguments = Except.ok (Json.obj fs) ∧
    (fc.name = "search_brave" → ∀ qv, lookupKey fs "query" = some qv →
      ∃ rs, searchExec qv = Except.ok rs)

/-- A transport-level failure of one attempt, in the spec wording: a network
error, or a status code that `raise_for_status` surfaces as an error
(4xx/5xx). -/
def transportFailure (a : Attempt) : Prop :=
  (∃ m, a = Attempt.netError m) ∨
  (∃ status body, a = Attempt.response status body ∧ 400 ≤ status ∧ status ≤ 599)

/-! ## Helper lemmas -/

lemma runToolCall_ok (searchExec : Json → Except PyError (List SearchResult))
    (fc : ToolCall) (h : toolCallOk searchExec fc) :
    runToolCall searchExec fc =
      Except.ok (Message.tool fc.id (specToolResultContent searchExec fc)) := by
  obtain ⟨fs, harg, hsb⟩ := h
  unfold runToolCall specToolResultContent
  rw [harg]
  by_cases hname : fc.name = "search_brave"
  · simp only [hname, if_pos rfl, pyContainsStr]
    cases hq : lookupKey fs "query" with
    | none => simp [hq]
    | some qv =>
        obtain ⟨rs, hrs⟩ := hsb hname qv hq
        simp [hq, pySubscriptStr, hrs]
  · simp [hname]

lemma runToolCalls_ok (searchExec : Json → Except PyError (List SearchResult))
    (tcs : List ToolCall) (h : ∀ fc ∈ tcs, toolCallOk searchExec fc) :
    runToolCalls searchExec tcs =
      (tcs.map (fun fc => Message.tool fc.id (specToolResultContent searchExec fc)),
       none) := by
  induction tcs with
  | nil => rfl
  | cons fc rest ih =>
      have hfc := runToolCall_ok searchExec fc (h fc (List.mem_cons_self fc rest))
      have hrest := ih (fun g hg => h g (List.mem_cons_of_mem fc hg))
      simp [runToolCalls, hfc, hrest]

lemma runToolCalls_raise (searchExec : Json → Except PyError (List SearchResult))
    (pre : List ToolCall) (fc : ToolCall) (post : List ToolCall) (m : String)
    (hpre : ∀ g ∈ pre, toolCallOk searchExec g)
    (hfc : fc.arguments = Except.error m) :
    runToolCalls searchExec (pre ++ fc :: post) =
      (pre.map (fun g => Message.tool g.id (specToolResultContent searchExec g)),
       some (PyError.valueError m)) := by
  induction pre with
  | nil =>
      simp only [List.nil_append, runToolCalls, runToolCall, hfc, List.map_nil]
  | cons g rest ih =>
      have hg := runToolCall_ok searchExec g (hpre g (List.mem_cons_self g rest))
      have hrest := ih (fun g' hg' => hpre g' (List.mem_cons_of_mem g hg'))
      simp [runToolCalls, hg, hrest]

lemma runAttempt_error_of_transportFailure (a : Attempt) (h : transportFailure a) :
    ∃ e, runAttempt a = Except.error e := by
  rcases h with ⟨m, rfl⟩ | ⟨status, body, rfl, h4, h5⟩
  · exact ⟨RequestExc.connection m, rfl⟩
  · exact ⟨RequestExc.httpStatus status, by simp [runAttempt, h4, h5]⟩

lemma braveRetryLoop_allFail (transport : Nat → Attempt)
    (h : ∀ i, i < 3 → ∃ e, runAttempt (transport i) = Except.error e) :
    ∃ e0 e1 e2, braveRetryLoop transport 0 3 =
      (none, ⟨3, [2, 4],
        [LogEvent.requestFailed e0, LogEvent.requestFailed e1,
         LogEvent.requestFailed e2]⟩) := by
  obtain ⟨e0, h0⟩ := h 0 (by norm_num)
  obtain ⟨e1, h1⟩ := h 1 (by norm_num)
  obtain ⟨e2, h2⟩ := h 2 (by norm_num)
  refine ⟨e0, e1, e2, ?_⟩
  simp [braveRetryLoop, h0, h1, h2]

lemma processLoop_ok_shape (llm : List Message → AssistantMsg)
    (searchExec : Json → Except PyError (List SearchResult)) :
    ∀ fuel history ans hist,
      processLoop llm searchExec fuel history = some (Except.ok ans, hist) →
      ∃ pre, hist = pre ++ [Message.assistant (llm pre)] ∧
        (llm pre).tool_calls = [] ∧ ans = (llm pre).content := by
  intro fuel
  induction fuel with
  | zero => intro history ans hist h; simp [processLoop] at h
  | succ n ih =>
      intro history ans hist h
      rw [processLoop] at h
      by_cases hempty : (llm history).tool_calls.isEmpty
      · rw [if_pos hempty] at h
        rw [Option.some.injEq, Prod.mk.injEq, Except.ok.injEq] at h
        exact ⟨history, h.2.symm, List.isEmpty_iff.mp hempty, h.1.symm⟩
      · rw [if_neg hempty] at h
        cases hrun : runToolCalls searchExec (llm history).tool_calls with
        | mk msgs err =>
            cases err with
            | some e => rw [hrun] at h; simp at h
            | none => rw [hrun] at h; exact ih _ _ _ h

/-! ## Claims -/

/-- C1: in any run of `process_user_query`, a model reply with no
tool-invocation-requests terminates the loop and its free-text content is
returned; in particular, when the very first reply has no tool calls and
content "42", the function returns "42" and the conversation holds exactly
the seeded system message and the user message before the assistant reply. -/
theorem claim_C1 (llm : List Message → AssistantMsg)
    (searchExec : Json → Except PyError (List SearchResult))
    (fuel : Nat) (q : String) :
    (∀ history, (llm history).tool_calls = [] →
      processLoop llm searchExec (fuel + 1) history =
        some (Except.ok (llm history).content,
              history ++ [Message.assistant (llm history)])) ∧
    ((llm [Message.system first_llm_system_prompt, Message.user q]).tool_calls = [] →
     (llm [Message.system first_llm_system_prompt, Message.user q]).content = some "42" →
      process_user_query llm searchExec (fuel + 1) q =
        some (Except.ok (some "42"),
              [Message.system first_llm_system_prompt, Message.user q,
               Message.assistant
                 (llm [Message.system first_llm_system_prompt, Message.user q])]) ∧
      [Message.system first_llm_system_prompt, Message.user q].length = 2) := by
  constructor
  · intro history h
    rw [processLoop, if_pos (by rw [h]; rfl)]
  · intro h1 h2
    refine ⟨?_, rfl⟩
    unfold process_user_query
    rw [processLoop, if_pos (by rw [h1]; rfl), h2]
    rfl

def llmC1 : List Message → AssistantMsg := fun _ => ⟨some "42", []⟩

def seC1 : Json → Except PyError (List SearchResult) := fun _ => Except.ok []

theorem claim_C1_witness :
    process_user_query llmC1 seC1 1 "What is six times seven?" =
      some (Except.ok (some "42"),
        [Message.system first_llm_system_prompt,
         Message.user "What is six times seven?",
         Message.assistant ⟨some "42", []⟩]) :=
  ((claim_C1 llmC1 seC1 0 "What is six times seven?").2 rfl rfl).1

/-- C2: for every tool-invocation-request of an assistant reply, processed
in order, the loop appends exactly one tool-result message tagged with the
originating request id, whose content is the indented JSON-array
serialization of the Search Tool results (field names preserved) for a
`search_brave` request whose decoded arguments carry a `query` key, the
literal string "No query found in arguments" for a `search_brave` request
without one, and the empty string for any other tool name. -/
theorem claim_C2 (llm : List Message → AssistantMsg)
    (searchExec : Json → Except PyError (List SearchResult))
    (fuel : Nat) (history : List Message)
    (hne : (llm history).tool_calls ≠ [])
    (hok : ∀ fc ∈ (llm history).tool_calls, toolCallOk searchExec fc) :
    processLoop llm searchExec (fuel + 1) history =
      processLoop llm searchExec fuel
        (history ++ [Message.assistant (llm history)] ++
         (llm history).tool_calls.map
           (fun fc => Message.tool fc.id (specToolResultContent searchExec fc))) := by
  have hempty : ¬(llm history).tool_calls.isEmpty := by
    simpa [List.isEmpty_iff] using hne
  rw [processLoop, if_neg hempty, runToolCalls_ok searchExec _ hok]

def tcC2a : ToolCall := ⟨"call_a", "search_brave", Except.ok (Json.obj [("query", Json.str "x")])⟩

def tcC2b : ToolCall := ⟨"call_b", "search_brave", Except.ok (Json.obj [])⟩

def tcC2c : ToolCall := ⟨"call_c", "get_weather", Except.ok (Json.obj [])⟩

def llmC2 : List Message → AssistantMsg := fun _ => ⟨none, [tcC2a, tcC2b, tcC2c]⟩

def seC2 : Json → Except PyError (List SearchResult) := fun _ => Except.ok []

def historyC2 : List Message :=
  [Message.system first_llm_system_prompt, Message.user "weather in Paris"]

theorem claim_C2_witness :
    processLoop llmC2 seC2 1 historyC2 =
      processLoop llmC2 seC2 0
        (historyC2 ++ [Message.assistant ⟨none, [tcC2a, tcC2b, tcC2c]⟩] ++
         [Message.tool "call_a" "[]",
          Message.tool "call_b" "No query found in arguments",
          Message.tool "call_c" ""]) := by
  have hok : ∀ fc ∈ (llmC2 historyC2).tool_calls, toolCallOk seC2 fc := by
    intro fc hfc
    simp only [llmC2, List.mem_cons, List.not_mem_nil, or_false] at hfc
    rcases hfc with rfl | rfl | rfl
    · exact ⟨[("query", Json.str "x")], rfl, fun _ qv _ => ⟨[], rfl⟩⟩
    · exact ⟨[], rfl, fun _ qv hq => nomatch hq⟩
    · exact ⟨[], rfl, fun hn => absurd hn (by decide)⟩
  have h := claim_C2 llmC2 seC2 0 historyC2 (fun hcon => nomatch hcon) hok
  exact h

/-- C9: `process_user_query` has no turn limit: whenever the latest reply
carries tool-invocation-requests the loop performs another iteration (or
surfaces the exception its tool execution raised); a final answer is
returned exactly via a reply with no tool-invocation-requests; and for a
model that never emits such a reply, no amount of fuel makes the function
return an answer. -/
theorem claim_C9 (llm : List Message → AssistantMsg)
    (searchExec : Json → Except PyError (List SearchResult)) (q : String) :
    (∀ fuel history, ¬(llm history).tool_calls.isEmpty →
      processLoop llm searchExec (fuel + 1) history =
        (match runToolCalls searchExec (llm history).tool_calls with
         | (msgs, some e) =>
             some (Except.error e,
                   history ++ [Message.assistant (llm history)] ++ msgs)
         | (msgs, none) =>
             processLoop llm searchExec fuel
               (history ++ [Message.assistant (llm history)] ++ msgs))) ∧
    (∀ fuel history ans hist,
      processLoop llm searchExec fuel history = some (Except.ok ans, hist) →
      ∃ pre, hist = pre ++ [Message.assistant (llm pre)] ∧
        (llm pre).tool_calls = [] ∧ ans = (llm pre).content) ∧
    ((∀ history, (llm history).tool_calls ≠ []) →
      ∀ fuel ans hist,
        process_user_query llm searchExec fuel q ≠ some (Except.ok ans, hist)) := by
  refine ⟨?_, processLoop_ok_shape llm searchExec, ?_⟩
  · intro fuel history h
    rw [processLoop, if_neg h]
  · intro hall fuel ans hist heq
    obtain ⟨pre, _, hempty, _⟩ :=
      processLoop_ok_shape llm searchExec fuel _ ans hist heq
    exact hall pre hempty

def llmC9 : List Message → AssistantMsg :=
  fun _ => ⟨none, [⟨"call_1", "search_brave", Except.ok (Json.obj [("query", Json.str "x")])⟩]⟩

def seC9 : Json → Except PyError (List SearchResult) := fun _ => Except.ok []

theorem claim_C9_witness :
    process_user_query llmC9 seC9 3 "open question" ≠
      some (Except.ok (some "done"), []) :=
  (claim_C9 llmC9 seC9 "open question").2.2
    (fun _ h => nomatch h) 3 (some "done") []

/-- C10: a tool-invocation-request whose argument blob is not valid JSON
makes `process_user_query` raise the `json.loads` `ValueError` and abort the
loop: requests before it get their tool-result messages, the offending
request gets none; a well-formed blob merely missing the `query` key instead
degrades to the placeholder tool-result. -/
theorem claim_C10 (llm : List Message → AssistantMsg)
    (searchExec : Json → Except PyError (List SearchResult))
    (fuel : Nat) (history : List Message)
    (pre : List ToolCall) (fc : ToolCall) (post : List ToolCall) (m : String)
    (hsplit : (llm history).tool_calls = pre ++ fc :: post)
    (hpre : ∀ g ∈ pre, toolCallOk searchExec g)
    (hfc : fc.arguments = Except.error m) :
    processLoop llm searchExec (fuel + 1) history =
      some (Except.error (PyError.valueError m),
            history ++ [Message.assistant (llm history)] ++
              pre.map (fun g => Message.tool g.id (specToolResultContent searchExec g))) ∧
    (∀ g : ToolCall, g.name = "search_brave" →
      ∀ fs, g.arguments = Except.ok (Json.obj fs) → lookupKey fs "query" = none →
        runToolCall searchExec g =
          Except.ok (Message.tool g.id "No query found in arguments")) := by
  constructor
  · have hempty : ¬(llm history).tool_calls.isEmpty := by
      rw [hsplit]; cases pre <;> simp
    rw [processLoop, if_neg hempty, hsplit,
        runToolCalls_raise searchExec pre fc post m hpre hfc]
  · intro g hname fs hargs hq
    unfold runToolCall
    rw [hargs]
    simp [hname, pyContainsStr, hq]

def tcC10 : ToolCall :=
  ⟨"call_bad", "search_brave", Except.error "Expecting value: line 1 column 1 (char 0)"⟩

def llmC10 : List Message → AssistantMsg := fun _ => ⟨none, [tcC10]⟩

def seC10 : Json → Except PyError (List SearchResult) := fun _ => Except.ok []

def historyC10 : List Message :=
  [Message.system first_llm_system_prompt, Message.user "broken"]

theorem claim_C10_witness :
    processLoop llmC10 seC10 1 historyC10 =
      some (Except.error (PyError.valueError "Expecting value: line 1 column 1 (char 0)"),
            [Message.system first_llm_system_prompt, Message.user "broken",
             Message.assistant ⟨none, [tcC10]⟩]) :=
  (claim_C10 llmC10 seC10 0 historyC10 [] tcC10 [] _
    rfl (fun _ hg => nomatch hg) rfl).1

/-- C3: with a non-empty query and a present credential, when every attempt
suffers a transport-level failure (a network error, or a status code that
`raise_for_status` surfaces as an error), `search_brave` makes 3 attempts in
total, sleeps 2 seconds after the first failure and 4 seconds after the
second, returns an empty sequence, and lets no exception escape. -/
theorem claim_C3 (q : String) (key : Option String) (transport : Nat → Attempt)
    (hq : q ≠ "") (hk : key.getD "" ≠ "")
    (hfail : ∀ i, i < 3 → transportFailure (transport i)) :
    (search_brave q key transport 10).1 = Except.ok [] ∧
    (search_brave q key transport 10).2.httpCalls = 3 ∧
    (search_brave q key transport 10).2.sleeps = [2, 4] := by
  obtain ⟨e0, e1, e2, hloop⟩ := braveRetryLoop_allFail transport
    (fun i hi => runAttempt_error_of_transportFailure _ (hfail i hi))
  simp [search_brave, hq, hk, hloop]

def trC3 : Nat → Attempt := fun _ => Attempt.netError "connection refused"

theorem claim_C3_witness :
    (search_brave "lean" (some "token-1") trC3 10).1 = Except.ok [] ∧
    (search_brave "lean" (some "token-1") trC3 10).2.httpCalls = 3 ∧
    (search_brave "lean" (some "token-1") trC3 10).2.sleeps = [2, 4] :=
  claim_C3 "lean" (some "token-1") trC3 (by decide) (by decide)
    (fun i _ => Or.inl ⟨"connection refused", rfl⟩)

/-- C4 as stated is false: a call with an empty query and an absent
credential is a missing-credential call, yet `search_brave` returns at the
empty-query guard before the credential check and logs nothing. -/
def trC4 : Nat → Attempt := fun _ => Attempt.netError "unreachable"

theorem claim_C4_counterexample :
    search_brave "" none trC4 10 = (Except.ok [], ⟨0, [], []⟩) := rfl

/-- C4 (amended): an empty query returns an empty sequence with no network
request, no raise and no log line (the empty-query guard runs first); a
non-empty query with an absent or empty credential returns an empty sequence
with no network request and exactly the missing-credential error line. -/
theorem claim_C4 (q : String) (key : Option String) (transport : Nat → Attempt)
    (count : Nat) :
    (q = "" → search_brave q key transport count = (Except.ok [], ⟨0, [], []⟩)) ∧
    (q ≠ "" → key.getD "" = "" →
      search_brave q key transport count =
        (Except.ok [], ⟨0, [], [LogEvent.missingKey]⟩)) := by
  constructor
  · intro h
    simp [search_brave, h]
  · intro hq hk
    simp [search_brave, hq, hk]

theorem claim_C4_witness :
    search_brave "" (some "token-2") trC4 10 = (Except.ok [], ⟨0, [], []⟩) ∧
    search_brave "lean" none trC4 10 =
      (Except.ok [], ⟨0, [], [LogEvent.missingKey]⟩) :=
  ⟨(claim_C4 "" (some "token-2") trC4 10).1 rfl,
   (claim_C4 "lean" none trC4 10).2 (by decide) rfl⟩

/-- C8 as stated is false: on a transport whose every attempt answers with
status 200 and an undecodable body, the `response.json()` failure (a
`requests.exceptions.JSONDecodeError`, hence a `RequestException`) is caught
by the retry handler; `search_brave` retries, sleeps 2 then 4 seconds, and
returns an empty sequence instead of propagating an exception. -/
def trC8 : Nat → Attempt :=
  fun _ => Attempt.response 200 (Except.error "Expecting value: line 1 column 1 (char 0)")

theorem claim_C8_counterexample :
    search_brave "rust" (some "token-3") trC8 10 =
      (Except.ok [],
       ⟨3, [2, 4],
        [LogEvent.requestFailed (RequestExc.jsonDecode "Expecting value: line 1 column 1 (char 0)"),
         LogEvent.requestFailed (RequestExc.jsonDecode "Expecting value: line 1 column 1 (char 0)"),
         LogEvent.requestFailed (RequestExc.jsonDecode "Expecting value: line 1 column 1 (char 0)")]⟩) := rfl

/-- C8 (amended): a JSON decode failure after a 2xx status is caught by the
`RequestException` handler like a transport failure (requests ≥ 2.27 raises
`requests.exceptions.JSONDecodeError`, a `RequestException` subclass); if
every attempt fails this way, `search_brave` makes 3 attempts, sleeps 2 then
4 seconds, and returns an empty sequence — no exception escapes. -/
theorem claim_C8 (q : String) (key : Option String) (transport : Nat → Attempt)
    (hq : q ≠ "") (hk : key.getD "" ≠ "")
    (hdec : ∀ i, i < 3 → ∃ s m, transport i = Attempt.response s (Except.error m) ∧
      200 ≤ s ∧ s ≤ 299) :
    (search_brave q key transport 10).1 = Except.ok [] ∧
    (search_brave q key transport 10).2.httpCalls = 3 ∧
    (search_brave q key transport 10).2.sleeps = [2, 4] := by
  obtain ⟨e0, e1, e2, hloop⟩ := braveRetryLoop_allFail transport (fun i hi => by
    obtain ⟨s, m, ht, h2, h3⟩ := hdec i hi
    refine ⟨RequestExc.jsonDecode m, ?_⟩
    rw [ht]
    simp only [runAttempt]
    rw [if_neg (by omega)])
  simp [search_brave, hq, hk, hloop]

theorem claim_C8_witness :
    (search_brave "haskell" (some "token-4") trC8 10).1 = Except.ok [] ∧
    (search_brave "haskell" (some "token-4") trC8 10).2.httpCalls = 3 ∧
    (search_brave "haskell" (some "token-4") trC8 10).2.sleeps = [2, 4] :=
  claim_C8 "haskell" (some "token-4") trC8 (by decide) (by decide)
    (fun i _ => ⟨200, "Expecting value: line 1 column 1 (char 0)",
      rfl, by norm_num, by norm_num⟩)

/-- C5 as stated is false: a 200 response whose body is valid JSON but does
not match the expected `{title, text}` structure makes `URLContent(**content)`
raise a `TypeError`, which the `except ValueError` clause does not catch —
`get_url_content` raises instead of returning an error record. -/
def trC5 : Nat → HttpResponse :=
  fun _ => ⟨200, Except.ok (Json.obj [("foo", Json.num 1)])⟩

theorem claim_C5_counterexample :
    (get_url_content "https://example.com/a" trC5).1 =
      Except.error (PyError.typeError "unexpected or missing keyword argument") := rfl

/-- C5 (amended): on a 200 response whose body cannot be decoded as JSON,
`get_url_content` returns a record with empty title/text and the error
string "Error parsing response: " followed by the decode-failure message; a
body that decodes but does not match the expected structure instead raises
the uncaught `TypeError` of the constructor spread. -/
theorem claim_C5 (url : String) (transport : Nat → HttpResponse)
    (h200 : (transport 0).status = 200) :
    (∀ m, (transport 0).body = Except.error m →
      get_url_content url transport =
        (Except.ok ⟨Json.str "", Json.str "",
                    Json.str ("Error parsing response: " ++ m)⟩, 1)) ∧
    (∀ j e, (transport 0).body = Except.ok j → urlContentOfJson j = Except.error e →
      get_url_content url transport = (Except.error e, 1)) := by
  constructor
  · intro m hm
    unfold get_url_content
    rw [if_neg (by simp [h200]), hm]
  · intro j e hj he
    unfold get_url_content
    rw [if_neg (by simp [h200]), hj]
    simp [he]

def trC5w : Nat → HttpResponse :=
  fun _ => ⟨200, Except.error "Expecting value: line 1 column 1 (char 0)"⟩

theorem claim_C5_witness :
    get_url_content "https://example.com/b" trC5w =
      (Except.ok ⟨Json.str "", Json.str "",
        Json.str "Error parsing response: Expecting value: line 1 column 1 (char 0)"⟩, 1) :=
  (claim_C5 "https://example.com/b" trC5w rfl).1
    "Expecting value: line 1 column 1 (char 0)" rfl

/-- C6: on a non-200 response, `get_url_content` returns a record with empty
title and text and `error` equal to "Error: " followed by the decimal status
code; and every call makes exactly one HTTP request (no retry). -/
theorem claim_C6 (url : String) (transport : Nat → HttpResponse)
    (hs : (transport 0).status ≠ 200) :
    get_url_content url transport =
      (Except.ok ⟨Json.str "", Json.str "",
                  Json.str ("Error: " ++ toString (transport 0).status)⟩, 1) ∧
    (∀ t : Nat → HttpResponse, (get_url_content url t).2 = 1) := by
  constructor
  · unfold get_url_content
    rw [if_pos hs]
  · intro t
    unfold get_url_content
    by_cases h : (t 0).status ≠ 200
    · rw [if_pos h]
    · rw [if_neg h]
      cases hb : (t 0).body with
      | error m => rfl
      | ok j =>
          cases hp : urlContentOfJson j with
          | ok u => simp [hp]
          | error e => simp [hp]

def trC6 : Nat → HttpResponse := fun _ => ⟨404, Except.error "Not Found"⟩

theorem claim_C6_witness :
    get_url_content "https://example.com/c" trC6 =
      (Except.ok ⟨Json.str "", Json.str "", Json.str "Error: 404"⟩, 1) :=
  (claim_C6 "https://example.com/c" trC6 (by decide)).1

/-- C7 as stated is false: a 200 response whose body itself supplies a
non-null `error` field alongside non-empty `title`/`text` is spread into the
returned record unchanged, so `error` is set while `title`/`text` carry
content. -/
def trC7 : Nat → HttpResponse :=
  fun _ => ⟨200, Except.ok (Json.obj
    [("title", Json.str "a"), ("text", Json.str "b"), ("error", Json.str "boom")])⟩

theorem claim_C7_counterexample :
    (get_url_content "https://example.com/d" trC7).1 =
      Except.ok ⟨Json.str "a", Json.str "b", Json.str "boom"⟩ ∧
    ¬ urlContentInvariant ⟨Json.str "a", Json.str "b", Json.str "boom"⟩ := by
  refine ⟨rfl, fun hinv => ?_⟩
  have h := (hinv.1 (by simp)).1
  simp at h

/-- C7 (amended): every record `get_url_content` returns on a response whose
200-path body does not itself set a non-null `error` field satisfies the
invariant: if `error` is set then title/text are empty placeholders, and if
title/text carry content then `error` is unset. -/
theorem claim_C7 (url : String) (transport : Nat → HttpResponse)
    (hb : benignBody (transport 0)) :
    ∀ u, (get_url_content url transport).1 = Except.ok u → urlContentInvariant u := by
  intro u hu
  unfold get_url_content at hu
  by_cases hs : (transport 0).status ≠ 200
  · rw [if_pos hs] at hu
    simp only at hu
    rw [Except.ok.injEq] at hu
    subst hu
    refine ⟨fun _ => ⟨rfl, rfl⟩, fun hc => ?_⟩
    rcases hc with hc | hc <;> exact absurd rfl hc
  · rw [if_neg hs] at hu
    have h200 : (transport 0).status = 200 := not_not.mp hs
    cases hbody : (transport 0).body with
    | error m =>
        rw [hbody] at hu
        simp only at hu
        rw [Except.ok.injEq] at hu
        subst hu
        refine ⟨fun _ => ⟨rfl, rfl⟩, fun hc => ?_⟩
        rcases hc with hc | hc <;> exact absurd rfl hc
    | ok j =>
        rw [hbody] at hu
        cases hparse : urlContentOfJson j with
        | error e => simp [hparse] at hu
        | ok u' =>
            simp only [hparse, Except.ok.injEq] at hu
            subst hu
            cases j with
            | obj fs =>
                have hkeys := hparse
                simp only [urlContentOfJson] at hkeys
                by_cases hcond : (fs.all
                    (fun p => p.1 == "title" || p.1 == "text" || p.1 == "error")
                    && (lookupKey fs "title").isSome && (lookupKey fs "text").isSome) = true
                · rw [if_pos hcond] at hkeys
                  rw [Except.ok.injEq] at hkeys
                  have herr : u'.error = Json.null := by
                    rw [← hkeys]
                    exact hb h200 fs hbody
                  exact ⟨fun hne => absurd herr hne, fun _ => herr⟩
                · rw [if_neg hcond] at hkeys
                  exact absurd hkeys (by simp)
            | null => exact absurd hparse (by simp [urlContentOfJson])
            | bool b => exact absurd hparse (by simp [urlContentOfJson])
            | num n => exact absurd hparse (by simp [urlContentOfJson])
            | str s => exact absurd hparse (by simp [urlContentOfJson])
            | arr xs => exact absurd hparse (by simp [urlContentOfJson])

def trC7w : Nat → HttpResponse :=
  fun _ => ⟨200, Except.ok (Json.obj [("title", Json.str "t"), ("text", Json.str "x")])⟩

theorem claim_C7_witness :
    urlContentInvariant ⟨Json.str "t", Json.str "x", Json.null⟩ :=
  claim_C7 "https://example.com/e" trC7w
    (fun _ fs hfs => by
      injection hfs with h1
      injection h1 with h2
      subst h2
      rfl)
    ⟨Json.str "t", Json.str "x", Json.null⟩ rfl
